import Mathlib

/-
Shallow embedding of the malware-scan aggregation pipeline of
`clamav/scan.py` (repository cc-utils), together with the external
data model it consumes (`clamav.client.ScanResult`, the OCI registry
client and the tar archive extractor are external collaborators; they
are modelled as abstract function parameters bundled in an environment).

Python exceptions are modelled by `Except`; the generator functions of
the source are modelled as functions returning the list of values they
yield (a generator that may raise mid-iteration is modelled as a list
of yielded values paired with an optional error).
-/

namespace CCUtils

/-- Malware verdict enumeration of the external scan client
(`clamav.client.MalwareStatus`), per the data model. -/
inductive MalwareStatus where
  | OK
  | UNKNOWN
  | FOUND_MALWARE
deriving DecidableEq, Repr

/-- Scan status enumeration of the external scan client
(`clamav.client.ScanStatus`), per the data model. -/
inductive ScanStatus where
  | SCAN_SUCCEEDED
  | SCAN_FAILED
deriving DecidableEq, Repr

/-- Timing and size metadata attached to a scan result. Durations are
modelled as rationals (the source uses floating-point seconds). -/
structure ScanMeta where
  scanned_octets : Nat
  scan_duration_seconds : ℚ
  receive_duration_seconds : ℚ
deriving DecidableEq, Repr

/-- Per-item scan result produced by the external scan client
(`clamav.client.ScanResult`): name of the scanned item, scan status,
malware verdict, and metadata. -/
structure ScanResult where
  name : String
  status : ScanStatus
  malware_status : MalwareStatus
  meta : ScanMeta
deriving DecidableEq, Repr

/-- Data-model invariant on `ScanResult`: `UNKNOWN` is only valid for a
failed scan; a failed scan reports `UNKNOWN`. -/
def ValidScanResult (r : ScanResult) : Prop :=
  (r.status = ScanStatus.SCAN_FAILED → r.malware_status = MalwareStatus.UNKNOWN) ∧
  (r.status = ScanStatus.SCAN_SUCCEEDED → r.malware_status ≠ MalwareStatus.UNKNOWN)

instance (r : ScanResult) : Decidable (ValidScanResult r) := by
  unfold ValidScanResult; infer_instance

instance {ε α : Type} [DecidableEq ε] [DecidableEq α] : DecidableEq (Except ε α) :=
  fun x y =>
  match x, y with
  | Except.error a, Except.error b =>
    if h : a = b then Decidable.isTrue (h ▸ rfl)
    else Decidable.isFalse (fun hc => h (by injection hc))
  | Except.ok a, Except.ok b =>
    if h : a = b then Decidable.isTrue (h ▸ rfl)
    else Decidable.isFalse (fun hc => h (by injection hc))
  | Except.error _, Except.ok _ => Decidable.isFalse (fun hc => by injection hc)
  | Except.ok _, Except.error _ => Decidable.isFalse (fun hc => by injection hc)

/-- Resource access kinds relevant to `resource_url` derivation in
`aggregate_scan_result` (`cm.OciAccess`, `cm.S3Access`, anything else). -/
inductive Access where
  | oci (imageReference : String)
  | s3 (bucketName objectKey : String)
  | other
deriving DecidableEq, Repr

/-- The subset of `cm.Resource` used by `aggregate_scan_result`. -/
structure Resource where
  access : Access
deriving DecidableEq, Repr

/-- Aggregated scan result for one scanned resource
(`AggregatedScanResult` in `clamav/scan.py`). -/
structure AggregatedScanResult where
  resource_url : String
  name : Option String
  malware_status : MalwareStatus
  findings : List ScanResult
  scan_count : Nat
  scanned_octets : Nat
  scan_duration_seconds : ℚ
  upload_duration_seconds : ℚ
deriving DecidableEq, Repr

/-- Errors raised by `aggregate_scan_result`: `ValueError` for an empty
results iterator, `ValueError` for a succeeded result whose malware
status is `UNKNOWN`. -/
inductive AggError where
  | emptyResult
  | invariantViolation
deriving DecidableEq, Repr

/-- Loop state of `aggregate_scan_result`: the local variables
`count`, `succeeded`, the three running sums, and `findings`. -/
structure AggState where
  count : Nat
  succeeded : Bool
  scanned_octets : Nat
  scan_duration_seconds : ℚ
  upload_duration_seconds : ℚ
  findings : List ScanResult
deriving DecidableEq, Repr

/-- Initial loop state of `aggregate_scan_result`. -/
def initAggState : AggState :=
  { count := 0
    succeeded := true
    scanned_octets := 0
    scan_duration_seconds := 0
    upload_duration_seconds := 0
    findings := [] }

/-- One iteration of the `for result in results` loop of
`aggregate_scan_result`. -/
def agg_step (st : AggState) (result : ScanResult) : Except AggError AggState :=
  let st := { st with count := st.count + 1 }
  match result.status with
  | ScanStatus.SCAN_FAILED => Except.ok { st with succeeded := false }
  | ScanStatus.SCAN_SUCCEEDED =>
    let st :=
      { st with
        scanned_octets := st.scanned_octets + result.meta.scanned_octets
        scan_duration_seconds := st.scan_duration_seconds + result.meta.scan_duration_seconds
        upload_duration_seconds := st.upload_duration_seconds + result.meta.receive_duration_seconds }
    match result.malware_status with
    | MalwareStatus.OK => Except.ok st
    | MalwareStatus.UNKNOWN => Except.error AggError.invariantViolation
    | MalwareStatus.FOUND_MALWARE => Except.ok { st with findings := st.findings ++ [result] }

/-- The full `for result in results` loop of `aggregate_scan_result`. -/
def agg_loop (st : AggState) : List ScanResult → Except AggError AggState
  | [] => Except.ok st
  | r :: rs =>
    match agg_step st r with
    | Except.error e => Except.error e
    | Except.ok st' => agg_loop st' rs

/-- Derivation of `resource_url` from the resource's access kind, as in
`aggregate_scan_result`. -/
def resource_url_of (resource : Resource) : String :=
  match resource.access with
  | Access.oci imageReference => imageReference
  | Access.s3 bucketName objectKey => "s3://" ++ bucketName ++ "/" ++ objectKey
  | Access.other => "<unknown>"

/-- Embedding of `aggregate_scan_result` from `clamav/scan.py`. -/
def aggregate_scan_result (resource : Resource) (results : List ScanResult)
    (name : Option String) : Except AggError AggregatedScanResult :=
  match agg_loop initAggState results with
  | Except.error e => Except.error e
  | Except.ok st =>
    if st.count = 0 then
      Except.error AggError.emptyResult
    else
      let malware_status :=
        if st.succeeded then
          if st.findings.length < 1 then MalwareStatus.OK
          else MalwareStatus.FOUND_MALWARE
        else MalwareStatus.UNKNOWN
      Except.ok
        { resource_url := resource_url_of resource
          name := name
          malware_status := malware_status
          findings := st.findings
          scan_count := st.count
          scanned_octets := st.scanned_octets
          scan_duration_seconds := st.scan_duration_seconds
          upload_duration_seconds := st.upload_duration_seconds }

/-- Successful results of a list, in order (used to state the sum
properties of the aggregator). -/
def successfulResults (l : List ScanResult) : List ScanResult :=
  l.filter (fun r => r.status == ScanStatus.SCAN_SUCCEEDED)

/-- Expected final loop state of `aggregate_scan_result` on input `l`
starting from state `st`, assuming no succeeded result reports
`UNKNOWN`. -/
def loopFinal (st : AggState) (l : List ScanResult) : AggState :=
  { count := st.count + l.length
    succeeded := st.succeeded && l.all (fun r => r.status == ScanStatus.SCAN_SUCCEEDED)
    scanned_octets :=
      st.scanned_octets + ((successfulResults l).map (fun r => r.meta.scanned_octets)).sum
    scan_duration_seconds :=
      st.scan_duration_seconds +
        ((successfulResults l).map (fun r => r.meta.scan_duration_seconds)).sum
    upload_duration_seconds :=
      st.upload_duration_seconds +
        ((successfulResults l).map (fun r => r.meta.receive_duration_seconds)).sum
    findings :=
      st.findings ++ l.filter (fun r =>
        r.status == ScanStatus.SCAN_SUCCEEDED &&
          r.malware_status == MalwareStatus.FOUND_MALWARE) }

/-- Content-addressed reference to a layer blob (`oci.model.OciBlobRef`,
restricted to the field read by `clamav/scan.py`). -/
structure OciBlobRef where
  digest : String
deriving DecidableEq, Repr

/-- Entry of a manifest-list: reference to a sub-manifest by digest. -/
structure SubManifestRef where
  digest : String
deriving DecidableEq, Repr

/-- Response of the registry client's `manifest` call: a single-image
manifest (`oci.model.OciImageManifest`), a manifest-list
(`oci.model.OciImageManifestList`), or any other manifest kind. -/
inductive Manifest where
  | image (layers : List OciBlobRef)
  | list (manifests : List SubManifestRef)
  | other
deriving DecidableEq, Repr

/-- Kind of a tar archive entry, as classified by `tar_info.isfile()`. -/
inductive TarEntryKind where
  | regular
  | directory
  | symlink
  | special
deriving DecidableEq, Repr

/-- One entry of a tar archive: name, kind, and the entry's bytes. -/
structure TarEntry where
  name : String
  kind : TarEntryKind
  data : List Nat
deriving DecidableEq, Repr

/-- The `tar_info.isfile()` classification: true exactly for regular
file entries. -/
def TarEntry.isfile (e : TarEntry) : Bool :=
  match e.kind with
  | TarEntryKind.regular => true
  | _ => false

/-- Archive-format failure of the tar extractor (`tarfile.TarError`). -/
inductive TarError where
  | readError
deriving DecidableEq, Repr

/-- Abstract environment bundling the external collaborators of the
scan pipeline: the registry client (`oci_client.manifest`,
`oci_client.blob`), the image-reference helper
(`OciImageReference.ref_without_tag` of `oci.model`), the tar extractor
(the `tarfile` iteration: the entries yielded before any archive-format
error, paired with that error if one occurs), and the scan client
(`clamav_client.scan`). -/
structure ScanEnv where
  manifest : String → Manifest
  blob : String → String → List Nat
  ref_without_tag : String → String
  parseTar : List Nat → List TarEntry × Option TarError
  scan : List Nat → String → ScanResult

/-- Errors of `_iter_layers`: `NotImplementedError` for an unsupported
manifest kind, and fuel exhaustion standing in for the unbounded
recursion of the source (which has no cycle protection). -/
inductive IterLayersError where
  | unsupportedManifest
  | outOfFuel
deriving DecidableEq, Repr

/-- Embedding of `_iter_layers` from `clamav/scan.py`: flatten the layer
blob references of a (possibly multi-arch) image, recursing into
sub-manifests via the derived reference `ref_without_tag ++ "@" ++ digest`.
The `fuel` bound makes the recursion of the source well-founded. -/
def _iter_layers (env : ScanEnv) : Nat → String → Except IterLayersError (List OciBlobRef)
  | 0, _ => Except.error IterLayersError.outOfFuel
  | fuel + 1, image_reference =>
    match env.manifest image_reference with
    | Manifest.image layers => Except.ok layers
    | Manifest.list manifests =>
      (manifests.mapM (fun m =>
        _iter_layers env fuel (env.ref_without_tag image_reference ++ "@" ++ m.digest))).map
        List.flatten
    | Manifest.other => Except.error IterLayersError.unsupportedManifest

/-- The entry loop of `scan_oci_blob_filewise`: one scan call per
regular-file entry, in archive entry order, named
`"{image_reference}:{digest}:{entry_name}"`. -/
def scan_entries_filewise (env : ScanEnv) (image_reference digest : String) :
    List TarEntry → List ScanResult
  | [] => []
  | e :: es =>
    if e.isfile then
      env.scan e.data (image_reference ++ ":" ++ digest ++ ":" ++ e.name) ::
        scan_entries_filewise env image_reference digest es
    else
      scan_entries_filewise env image_reference digest es

/-- Embedding of `scan_oci_blob_filewise` from `clamav/scan.py`: fetch
the blob, iterate its tar entries, scanning each regular file. The
result is the list of yielded scan results paired with the tar error,
if the tar iteration failed (before yielding further results). -/
def scan_oci_blob_filewise (env : ScanEnv) (blob_reference : OciBlobRef)
    (image_reference : String) : List ScanResult × Option TarError :=
  match env.parseTar (env.blob image_reference blob_reference.digest) with
  | (entries, err) =>
    (scan_entries_filewise env image_reference blob_reference.digest entries, err)

/-- Embedding of `scan_oci_blob_layerwise` from `clamav/scan.py`: one
scan call for the whole blob, named `"{image_reference}:{digest}"`. -/
def scan_oci_blob_layerwise (env : ScanEnv) (blob_reference : OciBlobRef)
    (image_reference : String) : List ScanResult :=
  [env.scan (env.blob image_reference blob_reference.digest)
    (image_reference ++ ":" ++ blob_reference.digest)]

/-- Embedding of `scan_oci_blob` from `clamav/scan.py`: yield the
file-wise results; if the tar iteration raised `tarfile.TarError`, catch
it and fall back to the layer-wise scan of the same blob. -/
def scan_oci_blob (env : ScanEnv) (blob_reference : OciBlobRef)
    (image_reference : String) : List ScanResult :=
  match scan_oci_blob_filewise env blob_reference image_reference with
  | (results, none) => results
  | (results, some _) =>
    results ++ scan_oci_blob_layerwise env blob_reference image_reference

/-- Errors of `scan_oci_image`: a propagated `_iter_layers` error, or
the `IndexError` of `layer_blobs[0]` on an empty layer tuple. -/
inductive ScanImageError where
  | layers (e : IterLayersError)
  | indexError
deriving DecidableEq, Repr

/-- Embedding of `scan_oci_image` from `clamav/scan.py`: materialize the
layer list; with more than one layer, dispatch `scan_oci_blob` per layer
via `executor.map` (which yields per-layer results in submission order,
here modelled by an ordered map) and flatten; otherwise scan
`layer_blobs[0]` directly, which is an `IndexError` when the layer list
is empty. -/
def scan_oci_image (env : ScanEnv) (fuel : Nat) (image_reference : String) :
    Except ScanImageError (List ScanResult) :=
  match _iter_layers env fuel image_reference with
  | Except.error e => Except.error (ScanImageError.layers e)
  | Except.ok layer_blobs =>
    if layer_blobs.length > 1 then
      Except.ok ((layer_blobs.map (fun b => scan_oci_blob env b image_reference)).flatten)
    else
      match layer_blobs.get? 0 with
      | none => Except.error ScanImageError.indexError
      | some b => Except.ok (scan_oci_blob env b image_reference)

/-- Spec-side definition for the refinement claim about the multi-layer
path: scanning the layers sequentially, one `scan_oci_blob` call per
layer in enumeration order, concatenating the per-layer results. -/
def scan_layers_sequentially (env : ScanEnv) (image_reference : String) :
    List OciBlobRef → List ScanResult
  | [] => []
  | b :: bs =>
    scan_oci_blob env b image_reference ++ scan_layers_sequentially env image_reference bs

/-- Results collected into `findings` by the aggregation loop: those
that scanned successfully and report `FOUND_MALWARE`, in order. -/
def foundFindings (l : List ScanResult) : List ScanResult :=
  l.filter (fun r =>
    r.status == ScanStatus.SCAN_SUCCEEDED &&
      r.malware_status == MalwareStatus.FOUND_MALWARE)

/-- Sample resource used by concrete witnesses. -/
def resW : Resource := { access := Access.oci "example.org/img:1.0" }

/-- Sample metadata used by concrete witnesses. -/
def metaW : ScanMeta := { scanned_octets := 100, scan_duration_seconds := 2, receive_duration_seconds := 3 }

/-- Sample clean successful result. -/
def rOk : ScanResult :=
  { name := "a", status := ScanStatus.SCAN_SUCCEEDED, malware_status := MalwareStatus.OK, meta := metaW }

/-- Sample successful result with a malware finding. -/
def rFound : ScanResult :=
  { name := "b", status := ScanStatus.SCAN_SUCCEEDED, malware_status := MalwareStatus.FOUND_MALWARE, meta := metaW }

/-- Sample failed result. -/
def rFailed : ScanResult :=
  { name := "c", status := ScanStatus.SCAN_FAILED, malware_status := MalwareStatus.UNKNOWN
    meta := { scanned_octets := 0, scan_duration_seconds := 0, receive_duration_seconds := 0 } }

/-- Sample invariant-violating result: succeeded but `UNKNOWN`. -/
def rBad : ScanResult :=
  { name := "d", status := ScanStatus.SCAN_SUCCEEDED, malware_status := MalwareStatus.UNKNOWN, meta := metaW }

/-- Sample regular-file tar entry. -/
def entFile1 : TarEntry := { name := "etc/a", kind := TarEntryKind.regular, data := [1] }

/-- Sample regular-file tar entry. -/
def entFile2 : TarEntry := { name := "bin/b", kind := TarEntryKind.regular, data := [2] }

/-- Sample regular-file tar entry. -/
def entFile3 : TarEntry := { name := "usr/c", kind := TarEntryKind.regular, data := [3] }

/-- Sample directory tar entry. -/
def entDir : TarEntry := { name := "etc", kind := TarEntryKind.directory, data := [] }

/-- Concrete environment used by witnesses: a multi-arch image
`reg/repo:tag` with two sub-manifests of two layers each, a zero-layer
image `reg/empty:tag`, a single-layer image `reg/single:tag`; the blob
of digest `sha256:l1` is a well-formed tar archive with three regular
files and one directory, every other blob is not tar-formatted. -/
def envW : ScanEnv :=
  { manifest := fun r =>
      if r = "reg/repo:tag" then
        Manifest.list [{ digest := "sha256:m1" }, { digest := "sha256:m2" }]
      else if r = "reg/repo@sha256:m1" then
        Manifest.image [{ digest := "sha256:l1" }, { digest := "sha256:l2" }]
      else if r = "reg/repo@sha256:m2" then
        Manifest.image [{ digest := "sha256:l3" }, { digest := "sha256:l4" }]
      else if r = "reg/empty:tag" then Manifest.image []
      else if r = "reg/single:tag" then Manifest.image [{ digest := "sha256:l1" }]
      else Manifest.other
    blob := fun _ d => if d = "sha256:l1" then [10, 20] else [99]
    ref_without_tag := fun r => if r = "reg/repo:tag" then "reg/repo" else r
    parseTar := fun bs =>
      if bs = [10, 20] then ([entFile1, entDir, entFile2, entFile3], none)
      else ([], some TarError.readError)
    scan := fun d n =>
      { name := n, status := ScanStatus.SCAN_SUCCEEDED, malware_status := MalwareStatus.OK
        meta := { scanned_octets := d.length, scan_duration_seconds := 0, receive_duration_seconds := 0 } } }

/-- Sub-manifest layer assignment of `envW`, used by the layer
enumeration witness. -/
def layersW (m : SubManifestRef) : List OciBlobRef :=
  if m.digest = "sha256:m1" then [{ digest := "sha256:l1" }, { digest := "sha256:l2" }]
  else [{ digest := "sha256:l3" }, { digest := "sha256:l4" }]

/-- The only error `agg_step` can raise is the invariant violation for
a succeeded result reporting `UNKNOWN`. -/
theorem agg_step_error_eq (st : AggState) (r : ScanResult) (e : AggError)
    (h : agg_step st r = Except.error e) : e = AggError.invariantViolation := by
  unfold agg_step at h
  cases hs : r.status <;> rw [hs] at h
  · cases hm : r.malware_status <;> rw [hm] at h <;> simp_all
  · simp_all

/-- The aggregation loop never raises the empty-results error. -/
theorem agg_loop_error_eq (l : List ScanResult) :
    ∀ (st : AggState) (e : AggError), agg_loop st l = Except.error e →
      e = AggError.invariantViolation := by
  induction l with
  | nil => intro st e h; simp [agg_loop] at h
  | cons r rs ih =>
    intro st e h
    unfold agg_loop at h
    cases hstep : agg_step st r with
    | error e' =>
      rw [hstep] at h
      cases h
      exact agg_step_error_eq st r e hstep
    | ok st' =>
      rw [hstep] at h
      exact ih st' e h

/-- On a result that is not a succeeded-`UNKNOWN`, `agg_step` succeeds
and produces the expected state. -/
theorem agg_step_ok (st : AggState) (r : ScanResult)
    (h : ¬(r.status = ScanStatus.SCAN_SUCCEEDED ∧
      r.malware_status = MalwareStatus.UNKNOWN)) :
    agg_step st r = Except.ok (loopFinal st [r]) := by
  unfold agg_step loopFinal successfulResults
  cases hs : r.status <;> cases hm : r.malware_status <;>
    simp_all [List.filter_cons]

/-- Characterization of the aggregation loop when no succeeded result
reports `UNKNOWN`. -/
theorem agg_loop_eq (l : List ScanResult) :
    ∀ st : AggState,
    (∀ r ∈ l, ¬(r.status = ScanStatus.SCAN_SUCCEEDED ∧
      r.malware_status = MalwareStatus.UNKNOWN)) →
    agg_loop st l = Except.ok (loopFinal st l) := by
  induction l with
  | nil =>
    intro st _
    simp [agg_loop, loopFinal, successfulResults]
  | cons r rs ih =>
    intro st h
    have hr := h r (List.mem_cons_self r rs)
    have hrs : ∀ x ∈ rs, ¬(x.status = ScanStatus.SCAN_SUCCEEDED ∧
        x.malware_status = MalwareStatus.UNKNOWN) :=
      fun x hx => h x (List.mem_cons_of_mem r hx)
    unfold agg_loop
    rw [agg_step_ok st r hr]
    show agg_loop (loopFinal st [r]) rs = Except.ok (loopFinal st (r :: rs))
    rw [ih _ hrs]
    unfold loopFinal successfulResults
    cases hs : r.status <;> cases hm : r.malware_status <;>
      simp_all [List.filter_cons, add_assoc, Bool.and_assoc, List.append_assoc] <;>
      omega

/-- Every successful `agg_step` increments `count` by exactly one. -/
theorem agg_step_ok_count (st : AggState) (r : ScanResult) (st' : AggState)
    (h : agg_step st r = Except.ok st') : st'.count = st.count + 1 := by
  cases st'
  unfold agg_step at h
  cases hs : r.status <;> rw [hs] at h
  · cases hm : r.malware_status <;> rw [hm] at h <;> simp_all
  · simp_all

/-- A successful aggregation loop counts every input item. -/
theorem agg_loop_ok_count (l : List ScanResult) :
    ∀ (st st' : AggState), agg_loop st l = Except.ok st' →
      st'.count = st.count + l.length := by
  induction l with
  | nil => intro st st' h; cases h; simp
  | cons r rs ih =>
    intro st st' h
    unfold agg_loop at h
    cases hstep : agg_step st r with
    | error e => rw [hstep] at h; cases h
    | ok st₁ =>
      rw [hstep] at h
      have h1 := agg_step_ok_count st r st₁ hstep
      have h2 := ih st₁ st' h
      simp [h2, h1]
      omega

/-- The aggregation loop raises the invariant violation whenever some
result scanned successfully but reports `UNKNOWN`. -/
theorem agg_loop_bad (l : List ScanResult) :
    ∀ st : AggState,
    (∃ r ∈ l, r.status = ScanStatus.SCAN_SUCCEEDED ∧
      r.malware_status = MalwareStatus.UNKNOWN) →
    agg_loop st l = Except.error AggError.invariantViolation := by
  induction l with
  | nil => intro st h; simp at h
  | cons r rs ih =>
    intro st h
    obtain ⟨x, hx, hbad⟩ := h
    unfold agg_loop
    rcases List.mem_cons.mp hx with hxr | hxrs
    · subst hxr
      unfold agg_step
      rw [hbad.1, hbad.2]
    · cases hstep : agg_step st r with
      | error e => rw [agg_step_error_eq st r e hstep]
      | ok st₁ => exact ih st₁ ⟨x, hxrs, hbad⟩

/-- Characterization of `aggregate_scan_result` on a non-empty input in
which no succeeded result reports `UNKNOWN`: the call returns the
aggregate built from total count, per-success sums, the succeeded flag
and the `FOUND_MALWARE` findings. -/
theorem aggregate_scan_result_eq (resource : Resource) (results : List ScanResult)
    (name : Option String) (hne : results ≠ [])
    (h : ∀ r ∈ results, ¬(r.status = ScanStatus.SCAN_SUCCEEDED ∧
      r.malware_status = MalwareStatus.UNKNOWN)) :
    aggregate_scan_result resource results name = Except.ok
      { resource_url := resource_url_of resource
        name := name
        malware_status :=
          if results.all (fun r => r.status == ScanStatus.SCAN_SUCCEEDED) then
            if (foundFindings results).length < 1 then MalwareStatus.OK
            else MalwareStatus.FOUND_MALWARE
          else MalwareStatus.UNKNOWN
        findings := foundFindings results
        scan_count := results.length
        scanned_octets := ((successfulResults results).map (fun r => r.meta.scanned_octets)).sum
        scan_duration_seconds :=
          ((successfulResults results).map (fun r => r.meta.scan_duration_seconds)).sum
        upload_duration_seconds :=
          ((successfulResults results).map (fun r => r.meta.receive_duration_seconds)).sum } := by
  unfold aggregate_scan_result
  rw [agg_loop_eq results initAggState h]
  simp [loopFinal, initAggState, foundFindings, hne]

/-- Helper: a list of valid scan results has no succeeded-`UNKNOWN`
member. -/
theorem no_bad_of_valid (results : List ScanResult)
    (hv : ∀ r ∈ results, ValidScanResult r) :
    ∀ r ∈ results, ¬(r.status = ScanStatus.SCAN_SUCCEEDED ∧
      r.malware_status = MalwareStatus.UNKNOWN) :=
  fun r hr hc => (hv r hr).2 hc.1 hc.2

/-- Helper: with no failed result, the `succeeded` flag of the
aggregation is true. -/
theorem all_succeeded_of_no_failed (results : List ScanResult)
    (hnofail : ∀ r ∈ results, r.status ≠ ScanStatus.SCAN_FAILED) :
    results.all (fun r => r.status == ScanStatus.SCAN_SUCCEEDED) = true := by
  rw [List.all_eq_true]
  intro r hr
  have hnf := hnofail r hr
  cases hsr : r.status
  · simp
  · exact absurd hsr hnf

/-- C1: for every non-empty sequence of (valid) scan results, the
aggregate verdict is `UNKNOWN` as soon as one result has status
`SCAN_FAILED` (regardless of any `FOUND_MALWARE` results); with no
failed result it is `FOUND_MALWARE` when some result reports
`FOUND_MALWARE`, and `OK` otherwise. -/
theorem aggregate_verdict_rule (resource : Resource) (results : List ScanResult)
    (name : Option String) (hne : results ≠ [])
    (hv : ∀ r ∈ results, ValidScanResult r) :
    ((∃ r ∈ results, r.status = ScanStatus.SCAN_FAILED) →
      ∃ agg, aggregate_scan_result resource results name = Except.ok agg ∧
        agg.malware_status = MalwareStatus.UNKNOWN) ∧
    ((∀ r ∈ results, r.status ≠ ScanStatus.SCAN_FAILED) →
      ((∃ r ∈ results, r.malware_status = MalwareStatus.FOUND_MALWARE) →
        ∃ agg, aggregate_scan_result resource results name = Except.ok agg ∧
          agg.malware_status = MalwareStatus.FOUND_MALWARE) ∧
      ((∀ r ∈ results, r.malware_status ≠ MalwareStatus.FOUND_MALWARE) →
        ∃ agg, aggregate_scan_result resource results name = Except.ok agg ∧
          agg.malware_status = MalwareStatus.OK)) := by
  have hmain := aggregate_scan_result_eq resource results name hne
    (no_bad_of_valid results hv)
  constructor
  · rintro ⟨r, hr, hfail⟩
    refine ⟨_, hmain, ?_⟩
    have hall : results.all (fun r => r.status == ScanStatus.SCAN_SUCCEEDED) = false := by
      rw [List.all_eq_false]
      exact ⟨r, hr, by simp [hfail]⟩
    simp [hall]
  · intro hnofail
    have hall := all_succeeded_of_no_failed results hnofail
    constructor
    · rintro ⟨r, hr, hfound⟩
      refine ⟨_, hmain, ?_⟩
      have hmem : r ∈ foundFindings results := by
        unfold foundFindings
        rw [List.mem_filter]
        refine ⟨hr, ?_⟩
        have hnf := hnofail r hr
        cases hsr : r.status
        · simp [hfound]
        · exact absurd hsr hnf
      have hlen : ¬((foundFindings results).length < 1) := by
        have := List.length_pos.mpr (List.ne_nil_of_mem hmem)
        omega
      simp [hall, hlen]
    · intro hnofound
      refine ⟨_, hmain, ?_⟩
      have hnil : foundFindings results = [] := by
        unfold foundFindings
        rw [List.filter_eq_nil_iff]
        intro r hr
        simp only [Bool.and_eq_true, beq_iff_eq, not_and]
        exact fun _ => hnofound r hr
      simp [hall, hnil]

/-- Witness for the aggregate verdict rule at concrete inputs: one
failed and one malware-positive result aggregate to `UNKNOWN`. -/
theorem aggregate_verdict_rule_witness :
    ∃ agg, aggregate_scan_result resW [rFailed, rFound] none = Except.ok agg ∧
      agg.malware_status = MalwareStatus.UNKNOWN :=
  (aggregate_verdict_rule resW [rFailed, rFound] none (by decide) (by decide)).1
    ⟨rFailed, by decide, by decide⟩

/-- C2: with no failed result and at least one `FOUND_MALWARE` result,
the aggregate verdict is `FOUND_MALWARE` and `findings` is exactly the
input subsequence of `FOUND_MALWARE` results, in input order. -/
theorem aggregate_findings_exact (resource : Resource) (results : List ScanResult)
    (name : Option String) (hne : results ≠ [])
    (hv : ∀ r ∈ results, ValidScanResult r)
    (hnofail : ∀ r ∈ results, r.status ≠ ScanStatus.SCAN_FAILED)
    (hfound : ∃ r ∈ results, r.malware_status = MalwareStatus.FOUND_MALWARE) :
    ∃ agg, aggregate_scan_result resource results name = Except.ok agg ∧
      agg.malware_status = MalwareStatus.FOUND_MALWARE ∧
      agg.findings = results.filter
        (fun r => r.malware_status == MalwareStatus.FOUND_MALWARE) := by
  have hmain := aggregate_scan_result_eq resource results name hne
    (no_bad_of_valid results hv)
  have hall := all_succeeded_of_no_failed results hnofail
  obtain ⟨r0, hr0, hf0⟩ := hfound
  have hmem : r0 ∈ foundFindings results := by
    unfold foundFindings
    rw [List.mem_filter]
    refine ⟨hr0, ?_⟩
    have hnf := hnofail r0 hr0
    cases hsr : r0.status
    · simp [hf0]
    · exact absurd hsr hnf
  have hlen : ¬((foundFindings results).length < 1) := by
    have := List.length_pos.mpr (List.ne_nil_of_mem hmem)
    omega
  refine ⟨_, hmain, by simp [hall, hlen], ?_⟩
  show foundFindings results = results.filter
    (fun r => r.malware_status == MalwareStatus.FOUND_MALWARE)
  unfold foundFindings
  apply List.filter_congr
  intro r hr
  have hnf := hnofail r hr
  cases hsr : r.status
  · simp [hsr]
  · exact absurd hsr hnf

/-- Witness for the findings-exactness property at a concrete input. -/
theorem aggregate_findings_exact_witness :
    ∃ agg, aggregate_scan_result resW [rOk, rFound] none = Except.ok agg ∧
      agg.malware_status = MalwareStatus.FOUND_MALWARE ∧
      agg.findings = [rOk, rFound].filter
        (fun r => r.malware_status == MalwareStatus.FOUND_MALWARE) :=
  aggregate_findings_exact resW [rOk, rFound] none (by decide) (by decide)
    (by decide) ⟨rFound, by decide, by decide⟩

/-- C3: aggregation of an empty result sequence fails with the
empty-results error; aggregation of a non-empty sequence never fails
with that error. -/
theorem aggregate_empty_error (resource : Resource) (name : Option String)
    (results : List ScanResult) :
    aggregate_scan_result resource [] name = Except.error AggError.emptyResult ∧
    (results ≠ [] →
      aggregate_scan_result resource results name ≠ Except.error AggError.emptyResult) := by
  constructor
  · rfl
  · intro hne h
    cases hl : agg_loop initAggState results with
    | error e =>
      have he := agg_loop_error_eq results initAggState e hl
      unfold aggregate_scan_result at h
      rw [hl, he] at h
      simp at h
    | ok st =>
      have hc := agg_loop_ok_count results initAggState st hl
      unfold aggregate_scan_result at h
      rw [hl] at h
      have hcz : ¬(st.count = 0) := by
        rw [hc]
        simp [initAggState, hne]
      simp [hcz] at h

/-- Witness for the empty-results error behavior at concrete inputs. -/
theorem aggregate_empty_error_witness :
    aggregate_scan_result resW [] none = Except.error AggError.emptyResult ∧
    aggregate_scan_result resW [rOk] none ≠ Except.error AggError.emptyResult := by
  have h := aggregate_empty_error resW none [rOk]
  exact ⟨h.1, h.2 (by decide)⟩

/-- C4: on every non-empty valid input, the aggregate counts all input
results (successes and failures) while the octet and duration sums range
over exactly the successful results. -/
theorem aggregate_sums (resource : Resource) (results : List ScanResult)
    (name : Option String) (hne : results ≠ [])
    (hv : ∀ r ∈ results, ValidScanResult r) :
    ∃ agg, aggregate_scan_result resource results name = Except.ok agg ∧
      agg.scan_count = results.length ∧
      agg.scanned_octets =
        ((successfulResults results).map (fun r => r.meta.scanned_octets)).sum ∧
      agg.scan_duration_seconds =
        ((successfulResults results).map (fun r => r.meta.scan_duration_seconds)).sum ∧
      agg.upload_duration_seconds =
        ((successfulResults results).map (fun r => r.meta.receive_duration_seconds)).sum := by
  have hmain := aggregate_scan_result_eq resource results name hne
    (no_bad_of_valid results hv)
  exact ⟨_, hmain, rfl, rfl, rfl, rfl⟩

/-- Witness for the aggregate sums at a concrete input with one success
and one failure. -/
theorem aggregate_sums_witness :
    ∃ agg, aggregate_scan_result resW [rOk, rFailed] none = Except.ok agg ∧
      agg.scan_count = [rOk, rFailed].length ∧
      agg.scanned_octets =
        ((successfulResults [rOk, rFailed]).map (fun r => r.meta.scanned_octets)).sum ∧
      agg.scan_duration_seconds =
        ((successfulResults [rOk, rFailed]).map (fun r => r.meta.scan_duration_seconds)).sum ∧
      agg.upload_duration_seconds =
        ((successfulResults [rOk, rFailed]).map (fun r => r.meta.receive_duration_seconds)).sum :=
  aggregate_sums resW [rOk, rFailed] none (by decide) (by decide)

/-- C8: a succeeded result reporting `UNKNOWN` anywhere in the input
makes the aggregation fail with the invariant-violation error; under the
data-model precondition that no such result exists, that error is
unreachable. -/
theorem aggregate_invariant_violation (resource : Resource)
    (results : List ScanResult) (name : Option String) :
    ((∃ r ∈ results, r.status = ScanStatus.SCAN_SUCCEEDED ∧
        r.malware_status = MalwareStatus.UNKNOWN) →
      aggregate_scan_result resource results name =
        Except.error AggError.invariantViolation) ∧
    ((∀ r ∈ results, ¬(r.status = ScanStatus.SCAN_SUCCEEDED ∧
        r.malware_status = MalwareStatus.UNKNOWN)) →
      aggregate_scan_result resource results name ≠
        Except.error AggError.invariantViolation) := by
  constructor
  · intro hbad
    unfold aggregate_scan_result
    rw [agg_loop_bad results initAggState hbad]
  · intro hnb h
    by_cases hne : results = []
    · subst hne
      simp [aggregate_scan_result, agg_loop, initAggState] at h
    · rw [aggregate_scan_result_eq resource results name hne hnb] at h
      simp at h

/-- Witness for the invariant-violation behavior at concrete inputs. -/
theorem aggregate_invariant_violation_witness :
    aggregate_scan_result resW [rBad] none =
      Except.error AggError.invariantViolation ∧
    aggregate_scan_result resW [rOk] none ≠
      Except.error AggError.invariantViolation :=
  ⟨(aggregate_invariant_violation resW [rBad] none).1 ⟨rBad, by decide, by decide⟩,
    (aggregate_invariant_violation resW [rOk] none).2 (by decide)⟩

/-- Helper: `mapM` over `Except` succeeds pointwise when every element
maps to a success, returning the mapped list in order. -/
theorem list_mapM_ok {α β ε : Type} (f : α → Except ε β) (g : α → β) :
    ∀ l : List α, (∀ a ∈ l, f a = Except.ok (g a)) →
      l.mapM f = Except.ok (l.map g) := by
  intro l
  induction l with
  | nil => intro _; rfl
  | cons a as ih =>
    intro h
    rw [List.mapM_cons, h a (List.mem_cons_self a as),
      ih (fun x hx => h x (List.mem_cons_of_mem a hx))]
    rfl

/-- C5: a single-image manifest yields exactly its layer sequence; a
manifest-list yields the depth-first concatenation, in sub-manifest
order, of recursing on the derived reference
`ref_without_tag ++ "@" ++ digest` of each sub-manifest; any other
manifest kind fails with the unsupported-input error. -/
theorem iter_layers_spec (env : ScanEnv) (fuel : Nat) (ref : String)
    (ms : List SubManifestRef) (L : SubManifestRef → List OciBlobRef)
    (hlist : env.manifest ref = Manifest.list ms)
    (hsub : ∀ m ∈ ms, env.manifest (env.ref_without_tag ref ++ "@" ++ m.digest) =
      Manifest.image (L m)) :
    _iter_layers env (fuel + 2) ref = Except.ok ((ms.map L).flatten) ∧
    (∀ (oneRef : String) (layers : List OciBlobRef),
      env.manifest oneRef = Manifest.image layers →
      _iter_layers env (fuel + 1) oneRef = Except.ok layers) ∧
    (∀ otherRef : String, env.manifest otherRef = Manifest.other →
      _iter_layers env (fuel + 1) otherRef =
        Except.error IterLayersError.unsupportedManifest) := by
  have himg : ∀ (oneRef : String) (layers : List OciBlobRef),
      env.manifest oneRef = Manifest.image layers →
      _iter_layers env (fuel + 1) oneRef = Except.ok layers := by
    intro oneRef layers h
    unfold _iter_layers
    rw [h]
  refine ⟨?_, himg, ?_⟩
  · show _iter_layers env ((fuel + 1) + 1) ref = Except.ok ((ms.map L).flatten)
    unfold _iter_layers
    rw [hlist]
    show Except.map List.flatten
        (ms.mapM (fun m =>
          _iter_layers env (fuel + 1) (env.ref_without_tag ref ++ "@" ++ m.digest))) =
      Except.ok ((ms.map L).flatten)
    rw [list_mapM_ok _ L ms (fun m hm => himg _ (L m) (hsub m hm))]
    rfl
  · intro otherRef h
    unfold _iter_layers
    rw [h]

/-- Witness for the layer enumeration: the concrete manifest-list of two
sub-manifests with two layers each flattens to the four layers in
depth-first sub-manifest order. -/
theorem iter_layers_spec_witness :
    _iter_layers envW 3 "reg/repo:tag" = Except.ok
      [{ digest := "sha256:l1" }, { digest := "sha256:l2" },
        { digest := "sha256:l3" }, { digest := "sha256:l4" }] := by
  have h := (iter_layers_spec envW 1 "reg/repo:tag"
    [{ digest := "sha256:m1" }, { digest := "sha256:m2" }] layersW
    (by decide) (by decide)).1
  exact h.trans (by decide)

/-- The file-wise entry loop scans exactly the regular-file entries, in
archive entry order, under the `"{image}:{digest}:{name}"` naming. -/
theorem scan_entries_filewise_eq (env : ScanEnv) (image_reference digest : String)
    (entries : List TarEntry) :
    scan_entries_filewise env image_reference digest entries =
      (entries.filter TarEntry.isfile).map
        (fun e => env.scan e.data (image_reference ++ ":" ++ digest ++ ":" ++ e.name)) := by
  induction entries with
  | nil => rfl
  | cons e es ih =>
    unfold scan_entries_filewise
    cases hf : e.isfile <;> simp [List.filter_cons, hf, ih]

/-- C6: on a blob whose bytes parse as a well-formed tar archive,
`scan_oci_blob` (via the file-wise path) issues exactly one scan call
per regular-file entry, in archive entry order, named
`"{image_reference}:{digest}:{entry_name}"`; non-regular entries
produce no scan call. -/
theorem scan_blob_filewise_calls (env : ScanEnv) (blob_reference : OciBlobRef)
    (image_reference : String) (entries : List TarEntry)
    (h : env.parseTar (env.blob image_reference blob_reference.digest) =
      (entries, none)) :
    scan_oci_blob env blob_reference image_reference =
      (entries.filter TarEntry.isfile).map
        (fun e => env.scan e.data
          (image_reference ++ ":" ++ blob_reference.digest ++ ":" ++ e.name)) := by
  unfold scan_oci_blob scan_oci_blob_filewise
  rw [h]
  exact scan_entries_filewise_eq env image_reference blob_reference.digest entries

/-- Witness for the file-wise scan: the concrete tar blob with three
regular files and one directory yields exactly three scan calls. -/
theorem scan_blob_filewise_calls_witness :
    scan_oci_blob envW { digest := "sha256:l1" } "img" =
      [envW.scan [1] "img:sha256:l1:etc/a",
        envW.scan [2] "img:sha256:l1:bin/b",
        envW.scan [3] "img:sha256:l1:usr/c"] := by
  have h := scan_blob_filewise_calls envW { digest := "sha256:l1" } "img"
    [entFile1, entDir, entFile2, entFile3] (by decide)
  exact h.trans (by decide)

/-- C7: on a blob whose bytes are not tar-formatted (the archive parse
fails before yielding any entry), `scan_oci_blob` catches the error and
issues exactly one scan call for the whole blob, named
`"{image_reference}:{digest}"`; it returns an ordinary result list, so
no archive-format error reaches its caller, and any sibling blob whose
bytes do parse still takes the file-wise path (the fallback decision is
blob-local). -/
theorem scan_blob_fallback (env : ScanEnv) (blob_reference : OciBlobRef)
    (image_reference : String) (err : TarError)
    (h : env.parseTar (env.blob image_reference blob_reference.digest) =
      ([], some err)) :
    scan_oci_blob env blob_reference image_reference =
      [env.scan (env.blob image_reference blob_reference.digest)
        (image_reference ++ ":" ++ blob_reference.digest)] ∧
    (∀ (sibling : OciBlobRef) (entries : List TarEntry),
      env.parseTar (env.blob image_reference sibling.digest) = (entries, none) →
      scan_oci_blob env sibling image_reference =
        (entries.filter TarEntry.isfile).map
          (fun e => env.scan e.data
            (image_reference ++ ":" ++ sibling.digest ++ ":" ++ e.name))) := by
  constructor
  · unfold scan_oci_blob scan_oci_blob_filewise scan_oci_blob_layerwise
    rw [h]
    rfl
  · intro sibling entries hs
    unfold scan_oci_blob scan_oci_blob_filewise
    rw [hs]
    exact scan_entries_filewise_eq env image_reference sibling.digest entries

/-- Witness for the layer-wise fallback: the concrete non-tar blob
yields exactly one whole-blob scan call. -/
theorem scan_blob_fallback_witness :
    scan_oci_blob envW { digest := "sha256:zz" } "img" =
      [envW.scan [99] "img:sha256:zz"] := by
  have h := (scan_blob_fallback envW { digest := "sha256:zz" } "img"
    TarError.readError (by decide)).1
  exact h.trans (by decide)

/-- C9: when layer enumeration yields zero blobs, `scan_oci_image` does
not return an empty result sequence: its non-parallel branch indexes
`layer_blobs[0]` and fails with an index error. -/
theorem scan_image_empty_layers_index_error (env : ScanEnv) (fuel : Nat)
    (image_reference : String)
    (h : _iter_layers env fuel image_reference = Except.ok []) :
    scan_oci_image env fuel image_reference =
      Except.error ScanImageError.indexError := by
  unfold scan_oci_image
  rw [h]
  rfl

/-- Witness for the zero-layer index error at the concrete zero-layer
image. -/
theorem scan_image_empty_layers_index_error_witness :
    scan_oci_image envW 1 "reg/empty:tag" =
      Except.error ScanImageError.indexError :=
  scan_image_empty_layers_index_error envW 1 "reg/empty:tag" (by decide)

/-- The flattened per-layer map equals sequential layer-by-layer
scanning. -/
theorem flatten_map_eq_sequential (env : ScanEnv) (image_reference : String)
    (blobs : List OciBlobRef) :
    (blobs.map (fun b => scan_oci_blob env b image_reference)).flatten =
      scan_layers_sequentially env image_reference blobs := by
  induction blobs with
  | nil => rfl
  | cons b bs ih => simp [scan_layers_sequentially, ih]

/-- C10: on an image with more than one layer, `scan_oci_image` returns
exactly the concatenation, in layer-enumeration order, of the
`scan_oci_blob` result sequences of the layers — extensionally equal to
scanning the layers sequentially in order (the `executor.map` of the
source returns per-layer results in submission order). -/
theorem scan_image_multilayer_sequential (env : ScanEnv) (fuel : Nat)
    (image_reference : String) (blobs : List OciBlobRef)
    (h : _iter_layers env fuel image_reference = Except.ok blobs)
    (hlen : blobs.length > 1) :
    scan_oci_image env fuel image_reference =
      Except.ok (scan_layers_sequentially env image_reference blobs) := by
  unfold scan_oci_image
  rw [h]
  show (if blobs.length > 1 then
      Except.ok ((blobs.map (fun b => scan_oci_blob env b image_reference)).flatten)
    else
      match blobs.get? 0 with
      | none => Except.error ScanImageError.indexError
      | some b => Except.ok (scan_oci_blob env b image_reference)) =
    Except.ok (scan_layers_sequentially env image_reference blobs)
  rw [if_pos hlen, flatten_map_eq_sequential]

/-- Witness for the multi-layer path at the concrete two-layer image. -/
theorem scan_image_multilayer_sequential_witness :
    scan_oci_image envW 1 "reg/repo@sha256:m1" =
      Except.ok (scan_layers_sequentially envW "reg/repo@sha256:m1"
        [{ digest := "sha256:l1" }, { digest := "sha256:l2" }]) :=
  scan_image_multilayer_sequential envW 1 "reg/repo@sha256:m1"
    [{ digest := "sha256:l1" }, { digest := "sha256:l2" }] (by decide) (by decide)

end CCUtils
